import Mathlib

/-!
Verification of the discovery-node selection and request-retry client
(`DiscoveryProvider` in `src/node_modules/@audius/libs/src/services/discoveryProvider`).

The embedding translates the JavaScript/TypeScript semantics directly:
- JS `number | null` values are `Option Int` (`none` is the JS `null`).
- Health fields of a parsed response are `Option Int`, where `none` models a
  field that is missing or not coercible to a number; using such a field in a
  JS subtraction yields `NaN`, and every `NaN > x` comparison is `false`.
- A fallible JS function is embedded with `Except`; a caught exception is the
  `Except.error` branch of the callee observed by the caller.
- The recursive `_makeRequest` is derecursified with an explicit fuel bound,
  since the JS recursion is not structurally bounded.
-/

namespace DiscProv

/-- A parsed response body. The four health fields are read by the staleness
checks; `none` models a field that is missing or malformed (its use in JS
arithmetic produces `NaN`). `payload` stands for the `data` field of the
response that `_makeRequest` hands back to callers. -/
structure ParsedResponse where
  latest_indexed_block : Option Int
  latest_chain_block : Option Int
  latest_indexed_slot_plays : Option Int
  latest_chain_slot_plays : Option Int
  payload : Int
  deriving Repr, DecidableEq

/-- JS truthiness of a `number | null` value: `null` and `0` are falsy, every
other number is truthy. -/
def jsTruthy : Option Int → Bool
  | none => false
  | some d => d != 0

/-- `DiscoveryProvider._getBlocksBehind`. The argument is `none` when
`parsedResponse` itself is nullish: destructuring then throws and the catch
returns `this.unhealthyBlockDiff`. When the response object is present but
`latest_chain_block` or `latest_indexed_block` is missing or malformed, the JS
subtraction produces `NaN`, the comparison `NaN > unhealthyBlockDiff` is
`false`, and the function returns `null` (embedded as `none`, meaning the node
is treated as not behind). -/
def getBlocksBehind (unhealthyBlockDiff : Int) (parsedResponse : Option ParsedResponse) :
    Option Int :=
  match parsedResponse with
  | none => some unhealthyBlockDiff
  | some r =>
    match r.latest_chain_block, r.latest_indexed_block with
    | some chainBlock, some indexedBlock =>
      if chainBlock - indexedBlock > unhealthyBlockDiff then some (chainBlock - indexedBlock)
      else none
    | _, _ => none

/-- JS falsiness of the `unhealthySlotDiffPlays` configuration value
(`number | null | undefined`): `null`, `undefined` and `0` are all falsy, so
`if (!this.unhealthySlotDiffPlays) return null` fires for each of them. -/
def slotDiffDisabled : Option Int → Bool
  | none => true
  | some v => v == 0

/-- `DiscoveryProvider._getPlaysSlotsBehind`. Mirrors `_getBlocksBehind` with
the extra leading guard `if (!this.unhealthySlotDiffPlays) return null`. The
second argument is `none` when `parsedResponse` is nullish (the catch branch
then returns `this.unhealthySlotDiffPlays`). -/
def getPlaysSlotsBehind (unhealthySlotDiffPlays : Option Int)
    (parsedResponse : Option ParsedResponse) : Option Int :=
  if slotDiffDisabled unhealthySlotDiffPlays then none
  else
    match unhealthySlotDiffPlays, parsedResponse with
    | none, _ => none
    | some t, none => some t
    | some t, some r =>
      match r.latest_chain_slot_plays, r.latest_indexed_slot_plays with
      | some chainSlotPlays, some indexedSlotPlays =>
        if chainSlotPlays - indexedSlotPlays > t then some (chainSlotPlays - indexedSlotPlays)
        else none
      | _, _ => none

/-- A JS query-parameter object, as an association list from key to value.
A value of `none` models an entry whose value is `undefined` or `null`
(the type annotation in the source is `Record<string, string>`, but callers
pass nullish values at runtime, which is why `_createDiscProvRequest`
sanitizes them). -/
abbrev QueryParams := List (String × Option String)

/-- The `RequestParams` object handed to `_createDiscProvRequest`. Optional
fields are `Option`; `data` is the request body of a post request, abstracted
to an integer tag since its contents are never inspected. -/
structure RequestParams where
  endpoint : String
  urlParams : String
  queryParams : Option QueryParams
  method : Option String
  headers : Option (List (String × String))
  data : Option Int
  timeout : Option Int
  deriving Repr, DecidableEq

/-- The axios request configuration built by `_createDiscProvRequest`. The URL
join is kept as its parts (base endpoint, route, URL params, query). -/
structure AxiosRequest where
  urlBase : String
  urlEndpoint : String
  urlParams : String
  urlQuery : Option QueryParams
  headers : List (String × String)
  method : String
  timeout : Int
  data : Option Int
  deriving Repr, DecidableEq

/-- JS object property assignment `headers[k] = v` on an association list:
overwrite the entry if the key exists, append otherwise. -/
def setHeader (h : List (String × String)) (k v : String) : List (String × String) :=
  if h.any (fun p => p.1 == k) then h.map (fun p => if p.1 == k then (k, v) else p)
  else h ++ [(k, v)]

/-- JS truthiness of the current-user id (`if (currentUserId)`): absent and
empty-string values are falsy. -/
def currentUserIdTruthy : Option String → Bool
  | none => false
  | some s => s != ""

/-- `DiscoveryProvider._createDiscProvRequest`. Returns the axios request
together with the request object as it stands after the call, because the
function mutates its input in place: it deletes `queryParams` entries whose
value is nullish, and when a truthy current-user id exists and the caller
supplied a `headers` object, the `X-User-ID` assignment writes through the
alias into that object (when no `headers` object was supplied, the assignment
targets a fresh empty object and the input is untouched). -/
def createDiscProvRequest (selectionRequestTimeout : Int) (currentUserId : Option String)
    (requestObj : RequestParams) (discoveryProviderEndpoint : String) :
    AxiosRequest × RequestParams :=
  let sanitizedQuery : Option QueryParams :=
    match requestObj.queryParams with
    | none => none
    | some q => some (q.filter (fun p => p.2.isSome))
  let requestObj1 : RequestParams := { requestObj with queryParams := sanitizedQuery }
  let withUser : List (String × String) × RequestParams :=
    match requestObj1.headers with
    | some h =>
      if currentUserIdTruthy currentUserId then
        let h1 := setHeader h "X-User-ID" ((currentUserId).getD "")
        (h1, { requestObj1 with headers := some h1 })
      else (h, requestObj1)
    | none =>
      if currentUserIdTruthy currentUserId then
        ([("X-User-ID", (currentUserId).getD "")], requestObj1)
      else ([], requestObj1)
  let axiosRequest : AxiosRequest :=
    { urlBase := discoveryProviderEndpoint
      urlEndpoint := requestObj1.endpoint
      urlParams := requestObj1.urlParams
      urlQuery := sanitizedQuery
      headers := withUser.1
      method := (requestObj1.method).getD "get"
      timeout := (requestObj1.timeout).getD selectionRequestTimeout
      data :=
        match requestObj1.method, requestObj1.data with
        | some "post", some d => some d
        | _, _ => none }
  (axiosRequest, withUser.2)

/-- One possible outcome of one issued HTTP request, as observed through
`_performRequestWithMonitoring`: a parsed response object, a response with
HTTP status 404 (rethrown as the distinguished sentinel `Error("404")`), or
any other request failure (rethrown as a generic error). The monitoring
callbacks swallow their own errors and never change the outcome. -/
inductive ReqOutcome where
  | ok (resp : ParsedResponse)
  | http404
  | otherErr
  deriving Repr, DecidableEq

/-- Modelled from the spec: the selection state of the external
`DiscoveryProviderSelection` collaborator, whose source is not part of this
tree (spec section 3, `SelectionState`): the cached `currentEndpoint` and the
`unhealthySet`. The set elements are `Option String` because
`getHealthyDiscoveryProviderEndpoint` passes the possibly-undefined current
endpoint to `addUnhealthy`. -/
structure SelectorState where
  cached : Option String
  unhealthy : List (Option String)
  deriving Repr, DecidableEq

/-- Modelled from the spec: `addUnhealthy(endpoint)` adds the endpoint to the
`unhealthySet` (spec section 4.2). -/
def SelectorState.addUnhealthy (s : SelectorState) (e : Option String) : SelectorState :=
  { s with unhealthy := e :: s.unhealthy }

/-- Modelled from the spec: `clearCached()` drops the cached
`currentEndpoint`, forcing the next `select()` to re-probe (spec section
4.2). -/
def SelectorState.clearCached (s : SelectorState) : SelectorState :=
  { s with cached := none }

/-- The mutable instance fields of `DiscoveryProvider` that the retry logic
reads and writes. -/
structure DPState where
  discoveryProviderEndpoint : Option String
  request404Count : Nat
  selector : SelectorState
  deriving Repr, DecidableEq

/-- The configuration fields of `DiscoveryProvider` that the retry logic
reads (never written after construction). The source defaults are
`selectionRequestRetries = MAX_MAKE_REQUEST_RETRY_COUNT = 5` and
`maxRequestsForTrue404 = MAX_MAKE_REQUEST_RETRIES_WITH_404 = 2`. -/
structure DPConfig where
  selectionRequestRetries : Nat
  maxRequestsForTrue404 : Nat
  unhealthyBlockDiff : Int
  unhealthySlotDiffPlays : Option Int
  deriving Repr, DecidableEq

/-- The environment of one run: the network and the external collaborators.
`probeResults` is consumed one entry per fresh (non-cached) probe round of
`select()`; `outcomes` is consumed one entry per issued HTTP request.
`ethContractsPresent` and `regressedMode` model the truthiness of
`this.ethContracts` and the value of `this.ethContracts.isInRegressedMode()`,
which are constant during one run. -/
structure Env where
  probeResults : List (Option String)
  outcomes : List ReqOutcome
  ethContractsPresent : Bool
  regressedMode : Bool
  deriving Repr, DecidableEq

/-- Modelled from the spec: `select()` returns the cached `currentEndpoint`
when one is cached, and otherwise runs a probe round (the next entry of
`Env.probeResults`), caching and returning its best candidate, or `none` when
no candidate is reachable (spec section 4.2). -/
def selectorSelect (s : SelectorState) (env : Env) : Option String × SelectorState × Env :=
  match s.cached with
  | some e => (some e, s, env)
  | none =>
    match env.probeResults with
    | [] => (none, s, env)
    | r :: rest => (r, { s with cached := r }, { env with probeResults := rest })

/-- JS falsiness of a `string | undefined` endpoint value (`if (!endpoint)`):
`undefined` and the empty string are falsy. -/
def endpointFalsy : Option String → Bool
  | none => true
  | some e => e == ""

/-- `DiscoveryProvider.getHealthyDiscoveryProviderEndpoint`. When
`attemptedRetries` exceeds `selectionRequestRetries`, the current endpoint is
marked unhealthy, the cached selection is cleared, and a fresh `select()` is
performed; otherwise the current `discoveryProviderEndpoint` is used as is.
A falsy resulting endpoint raises the terminal error (the `Except.error`
branch models the `throw`); selector mutations made before the throw
persist. -/
def getHealthyEndpoint (cfg : DPConfig) (st : DPState) (env : Env) (attemptedRetries : Nat) :
    Except String String × DPState × Env :=
  let step : Option String × DPState × Env :=
    if attemptedRetries > cfg.selectionRequestRetries then
      let sel := (st.selector.addUnhealthy st.discoveryProviderEndpoint).clearCached
      let res := selectorSelect sel env
      (res.1, { st with selector := res.2.1 }, res.2.2)
    else (st.discoveryProviderEndpoint, st, env)
  if endpointFalsy step.1 then
    (Except.error "All Discovery Providers are unhealthy and unavailable.", step.2.1, step.2.2)
  else
    (Except.ok (step.1.getD ""), step.2.1, step.2.2)

/-- `_performRequestWithMonitoring`, abstracted over the network: consume the
next outcome from the environment. `Except.error true` is the rethrown
sentinel `Error("404")`; `Except.error false` is any other request error. An
exhausted outcome list behaves as a generic request error. -/
def performRequest (env : Env) : Except Bool ParsedResponse × Env :=
  match env.outcomes with
  | [] => (Except.error false, env)
  | ReqOutcome.ok r :: rest => (Except.ok r, { env with outcomes := rest })
  | ReqOutcome.http404 :: rest => (Except.error true, { env with outcomes := rest })
  | ReqOutcome.otherErr :: rest => (Except.error false, { env with outcomes := rest })

/-- The value the `_makeRequest` promise resolves with: response data
(`parsedResponse.data`), the explicit `null` result, the bare `return`
(resolving to `undefined`) taken when endpoint selection throws, or `fuelOut`
when the fuel bound of the embedding is hit. -/
inductive MkResult where
  | value (d : Int)
  | jsNull
  | undef
  | fuelOut
  deriving Repr, DecidableEq

/-- The selection phase of `_makeRequest` (its first try block): obtain a
healthy endpoint; if it differs from the previous `discoveryProviderEndpoint`,
update the field and reset `attemptedRetries` to 0, otherwise keep the counter.
A thrown selection error is caught and surfaces as `none` in the third
component (the bare `return`); state mutations made before the throw
persist. -/
def selectPhase (cfg : DPConfig) (st : DPState) (env : Env) (attemptedRetries : Nat) :
    DPState × Env × Option Nat :=
  match getHealthyEndpoint cfg st env attemptedRetries with
  | (Except.error _, st1, env1) => (st1, env1, none)
  | (Except.ok newEp, st1, env1) =>
    if st1.discoveryProviderEndpoint ≠ some newEp then
      ({ st1 with discoveryProviderEndpoint := some newEp }, env1, some 0)
    else (st1, env1, some attemptedRetries)

/-- `DiscoveryProvider._makeRequest`, derecursified with a fuel bound. One call
of `makeRequest` is one invocation of the JS function; the recursive retries
are the recursive JS calls. The flow is: selection phase (a caught selection
error resolves to `undefined`); issue the request; on a sentinel 404 error with
retry enabled, increment `request404Count` and either recurse with
`selectionRequestRetries + 1` to force reselection (when the incremented count
is still under `maxRequestsForTrue404`) or reset the count and resolve `null`;
on any other error with retry enabled, recurse with the counter incremented;
on a response, run the two staleness checks unless the regressed-mode flag
suppresses them, recursing (or resolving `null` without retry) when stale;
otherwise reset `request404Count` and resolve with the response data. -/
def makeRequest (cfg : DPConfig) :
    Nat → DPState → Env → Bool → Nat → MkResult × DPState × Env
  | 0, st, env, _, _ => (MkResult.fuelOut, st, env)
  | fuel + 1, st, env, retry, attemptedRetries =>
    match selectPhase cfg st env attemptedRetries with
    | (st1, env1, none) => (MkResult.undef, st1, env1)
    | (st1, env1, some ar) =>
      match performRequest env1 with
      | (Except.error is404, env2) =>
        if retry then
          if is404 then
            if st1.request404Count + 1 < cfg.maxRequestsForTrue404 then
              makeRequest cfg fuel { st1 with request404Count := st1.request404Count + 1 }
                env2 retry (cfg.selectionRequestRetries + 1)
            else (MkResult.jsNull, { st1 with request404Count := 0 }, env2)
          else makeRequest cfg fuel st1 env2 retry (ar + 1)
        else (MkResult.jsNull, st1, env2)
      | (Except.ok resp, env2) =>
        let notInRegressedMode := env2.ethContractsPresent && !env2.regressedMode
        if notInRegressedMode && jsTruthy (getBlocksBehind cfg.unhealthyBlockDiff (some resp)) then
          if retry then makeRequest cfg fuel st1 env2 retry (ar + 1)
          else (MkResult.jsNull, st1, env2)
        else if notInRegressedMode
            && jsTruthy (getPlaysSlotsBehind cfg.unhealthySlotDiffPlays (some resp)) then
          if retry then makeRequest cfg fuel st1 env2 retry (ar + 1)
          else (MkResult.jsNull, st1, env2)
        else (MkResult.value resp.payload, { st1 with request404Count := 0 }, env2)

/-! ## Helper lemmas -/

theorem getHealthyEndpoint_endpoint_eq (cfg : DPConfig) (st : DPState) (env : Env)
    (ar : Nat) :
    (getHealthyEndpoint cfg st env ar).2.1.discoveryProviderEndpoint
      = st.discoveryProviderEndpoint := by
  unfold getHealthyEndpoint
  dsimp only
  split <;> split <;> rfl

theorem getHealthyEndpoint_count_eq (cfg : DPConfig) (st : DPState) (env : Env)
    (ar : Nat) :
    (getHealthyEndpoint cfg st env ar).2.1.request404Count = st.request404Count := by
  unfold getHealthyEndpoint
  dsimp only
  split <;> split <;> rfl

theorem selectPhase_count_eq (cfg : DPConfig) (st : DPState) (env : Env) (ar : Nat) :
    (selectPhase cfg st env ar).1.request404Count = st.request404Count := by
  unfold selectPhase
  have h := getHealthyEndpoint_count_eq cfg st env ar
  rcases hge : getHealthyEndpoint cfg st env ar with ⟨exc, st1, env1⟩
  rw [hge] at h
  cases exc with
  | error e => simpa using h
  | ok newEp =>
    dsimp only
    split <;> simpa using h

theorem makeRequest_404_step (cfg : DPConfig) (fuel : Nat) (st st1 : DPState)
    (env env1 env2 : Env) (ar ar1 : Nat)
    (hsel : selectPhase cfg st env ar = (st1, env1, some ar1))
    (hreq : performRequest env1 = (Except.error true, env2)) :
    makeRequest cfg (fuel + 1) st env true ar
      = (if st1.request404Count + 1 < cfg.maxRequestsForTrue404 then
          makeRequest cfg fuel { st1 with request404Count := st1.request404Count + 1 }
            env2 true (cfg.selectionRequestRetries + 1)
        else (MkResult.jsNull, { st1 with request404Count := 0 }, env2)) := by
  simp only [makeRequest, hsel, hreq, if_true]

theorem makeRequest_count_lt (cfg : DPConfig) :
    ∀ fuel st env retry ar res, makeRequest cfg fuel st env retry ar = res →
      st.request404Count < cfg.maxRequestsForTrue404 →
      res.2.1.request404Count < cfg.maxRequestsForTrue404 := by
  intro fuel
  induction fuel with
  | zero =>
    intro st env retry ar res hmk hlt
    cases hmk
    simpa using hlt
  | succ n ih =>
    intro st env retry ar res hmk hlt
    have hc := selectPhase_count_eq cfg st env ar
    rcases hsel : selectPhase cfg st env ar with ⟨st1, env1, o⟩
    rw [hsel] at hc
    simp only at hc
    simp only [makeRequest, hsel] at hmk
    cases o with
    | none =>
      dsimp only at hmk
      cases hmk
      simpa [hc] using hlt
    | some ar1 =>
      dsimp only at hmk
      rcases hreq : performRequest env1 with ⟨exc, env2⟩
      rw [hreq] at hmk
      have hlt1 : st1.request404Count < cfg.maxRequestsForTrue404 := by
        rw [hc]; exact hlt
      cases exc with
      | error is404 =>
        dsimp only at hmk
        cases retry with
        | false =>
          rw [if_neg (by decide : ¬ (false = true))] at hmk
          cases hmk
          simpa using hlt1
        | true =>
          rw [if_pos rfl] at hmk
          cases is404 with
          | false =>
            rw [if_neg (by decide : ¬ (false = true))] at hmk
            exact ih _ _ _ _ _ hmk hlt1
          | true =>
            rw [if_pos rfl] at hmk
            by_cases hb : st1.request404Count + 1 < cfg.maxRequestsForTrue404
            · rw [if_pos hb] at hmk
              exact ih _ _ _ _ _ hmk hb
            · rw [if_neg hb] at hmk
              cases hmk
              exact Nat.lt_of_le_of_lt (Nat.zero_le _) hlt
      | ok resp =>
        dsimp only at hmk
        split at hmk
        · cases retry with
          | false =>
            rw [if_neg (by decide : ¬ (false = true))] at hmk
            cases hmk
            simpa using hlt1
          | true =>
            rw [if_pos rfl] at hmk
            exact ih _ _ _ _ _ hmk hlt1
        · split at hmk
          · cases retry with
            | false =>
              rw [if_neg (by decide : ¬ (false = true))] at hmk
              cases hmk
              simpa using hlt1
            | true =>
              rw [if_pos rfl] at hmk
              exact ih _ _ _ _ _ hmk hlt1
          · cases hmk
            exact Nat.lt_of_le_of_lt (Nat.zero_le _) hlt

theorem makeRequest_value_count_zero (cfg : DPConfig) :
    ∀ fuel st env retry ar res d, makeRequest cfg fuel st env retry ar = res →
      res.1 = MkResult.value d → res.2.1.request404Count = 0 := by
  intro fuel
  induction fuel with
  | zero =>
    intro st env retry ar res d hmk hv
    cases hmk
    simp [makeRequest] at hv
  | succ n ih =>
    intro st env retry ar res d hmk hv
    rcases hsel : selectPhase cfg st env ar with ⟨st1, env1, o⟩
    simp only [makeRequest, hsel] at hmk
    cases o with
    | none =>
      dsimp only at hmk
      cases hmk
      simp at hv
    | some ar1 =>
      dsimp only at hmk
      rcases hreq : performRequest env1 with ⟨exc, env2⟩
      rw [hreq] at hmk
      cases exc with
      | error is404 =>
        dsimp only at hmk
        cases retry with
        | false =>
          rw [if_neg (by decide : ¬ (false = true))] at hmk
          cases hmk
          simp at hv
        | true =>
          rw [if_pos rfl] at hmk
          cases is404 with
          | false =>
            rw [if_neg (by decide : ¬ (false = true))] at hmk
            exact ih _ _ _ _ _ _ hmk hv
          | true =>
            rw [if_pos rfl] at hmk
            split at hmk
            · exact ih _ _ _ _ _ _ hmk hv
            · cases hmk
              simp at hv
      | ok resp =>
        dsimp only at hmk
        split at hmk
        · cases retry with
          | false =>
            rw [if_neg (by decide : ¬ (false = true))] at hmk
            cases hmk
            simp at hv
          | true =>
            rw [if_pos rfl] at hmk
            exact ih _ _ _ _ _ _ hmk hv
        · split at hmk
          · cases retry with
            | false =>
              rw [if_neg (by decide : ¬ (false = true))] at hmk
              cases hmk
              simp at hv
            | true =>
              rw [if_pos rfl] at hmk
              exact ih _ _ _ _ _ _ hmk hv
          · cases hmk
            rfl

/-! ## Claims -/

/-- Claim C3: the code is wrong here. The documentation of `_getBlocksBehind`
and spec property P3 say a health response missing
`latest_indexed_block`/`latest_chain_block` must be classified as maximally
stale, but when the response object is present and a field is merely missing,
the destructuring does not throw: the subtraction yields `NaN`, the comparison
is `false`, and the function returns `null`, classifying the response as
healthy. Only a nullish response hits the catch that returns
`unhealthyBlockDiff`. -/
theorem c3_missing_fields_classified_healthy :
    getBlocksBehind 100 (some (ParsedResponse.mk none none (some 0) (some 0) 0)) = none
      ∧ getBlocksBehind 100 (some (ParsedResponse.mk (some 3) none (some 0) (some 0) 0)) = none
      ∧ getBlocksBehind 100 none = some 100 := by
  exact ⟨rfl, rfl, rfl⟩

/-- Claim C8: when `unhealthySlotDiffPlays` is configured as null or left
undefined, `_getPlaysSlotsBehind` returns null for every response, so a
slot-lag staleness rejection can never occur. -/
theorem c8_slot_check_disabled_when_null (parsedResponse : Option ParsedResponse) :
    getPlaysSlotsBehind none parsedResponse = none := rfl

/-- Claim C10: when `unhealthySlotDiffPlays` is configured as the number 0, the
leading falsiness guard of `_getPlaysSlotsBehind` also fires, so the slot
staleness check is entirely disabled: the function returns null for every
response, even one whose slot lag is strictly positive, and a zero-tolerance
slot threshold cannot be expressed. -/
theorem c10_slot_check_disabled_when_zero (parsedResponse : Option ParsedResponse) :
    getPlaysSlotsBehind (some 0) parsedResponse = none := rfl

/-- Claim C9 counterexample: `_createDiscProvRequest` is not free of effects on
its input. On a request whose `queryParams` contains a nullish value, the
sanitizing loop deletes that entry from the input object in place, so the
object observed after request construction differs from the one passed in. -/
theorem c9_counterexample :
    (createDiscProvRequest 3000 none
        (RequestParams.mk "tracks" "" (some [("a", none), ("b", some "1")]) none none none none)
        "https://dn1").2
      ≠ RequestParams.mk "tracks" "" (some [("a", none), ("b", some "1")]) none none none none := by
  decide

/-- Claim C9 amended: `_createDiscProvRequest` mutates its input in two cases:
it deletes `queryParams` entries with nullish values, and when a truthy
current-user id is present it writes the `X-User-ID` key through the alias
into a caller-supplied `headers` object. A request object whose `queryParams`
values are all non-nullish is left unchanged provided no truthy current-user
id is set or no `headers` object was supplied. -/
theorem c9_amended_no_mutation (selectionRequestTimeout : Int) (currentUserId : Option String)
    (requestObj : RequestParams) (discoveryProviderEndpoint : String)
    (hq : ∀ q, requestObj.queryParams = some q → ∀ p ∈ q, (p : String × Option String).2.isSome)
    (hh : currentUserIdTruthy currentUserId = false ∨ requestObj.headers = none) :
    (createDiscProvRequest selectionRequestTimeout currentUserId requestObj
        discoveryProviderEndpoint).2 = requestObj := by
  unfold createDiscProvRequest
  dsimp only
  have hquery :
      (match requestObj.queryParams with
        | none => none
        | some q => some (q.filter (fun p => p.2.isSome))) = requestObj.queryParams := by
    rcases hqp : requestObj.queryParams with _ | q
    · rfl
    · simp only [Option.some.injEq]
      exact List.filter_eq_self.mpr (hq q hqp)
  rcases hhd : requestObj.headers with _ | h
  · rcases hu : currentUserIdTruthy currentUserId with _ | _ <;>
      simp_all <;> cases requestObj <;> simp_all
  · rcases hh with hh | hh
    · simp_all
      cases requestObj
      simp_all
    · rw [hhd] at hh
      exact absurd hh (by simp)

/-- Claim C9 amended, witness: a concrete request with all-present query
values, no current user and no headers object is returned unchanged. -/
theorem c9_amended_no_mutation_witness :
    (createDiscProvRequest 3000 none
        (RequestParams.mk "tracks" "" (some [("b", some "1")]) none none none none)
        "https://dn1").2
      = RequestParams.mk "tracks" "" (some [("b", some "1")]) none none none none := by
  exact c9_amended_no_mutation 3000 none
    (RequestParams.mk "tracks" "" (some [("b", some "1")]) none none none none)
    "https://dn1"
    (by
      intro q hq p hp
      injection hq with hq
      subst hq
      simp only [List.mem_singleton] at hp
      subst hp
      rfl)
    (Or.inl rfl)

/-- Claim C2 counterexample: with no cached endpoint and no reachable
candidate, `getHealthyDiscoveryProviderEndpoint` throws the terminal
all-unhealthy error, but `_makeRequest` catches that throw (its first try
block ends in a bare `return`), so the high-level request resolves to
`undefined` instead of propagating a thrown error to the caller. -/
theorem c2_counterexample :
    (getHealthyEndpoint (DPConfig.mk 5 2 100 none)
        (DPState.mk none 0 (SelectorState.mk none []))
        (Env.mk [] [] true false) 0).1
      = Except.error "All Discovery Providers are unhealthy and unavailable."
    ∧ (makeRequest (DPConfig.mk 5 2 100 none) 3
        (DPState.mk none 0 (SelectorState.mk none []))
        (Env.mk [] [] true false) true 0).1 = MkResult.undef := by
  exact ⟨rfl, rfl⟩

/-- Claim C2 amended: the all-unhealthy condition is thrown by
`getHealthyDiscoveryProviderEndpoint`, but `_makeRequest` catches the throw
and resolves to `undefined` (distinct from the `null` no-data result); the
caller of the high-level operation never observes the thrown error. -/
theorem c2_amended_selection_failure_resolves_undefined (cfg : DPConfig) (st st1 : DPState)
    (env env1 : Env) (fuel attemptedRetries : Nat) (retry : Bool) (msg : String)
    (h : getHealthyEndpoint cfg st env attemptedRetries = (Except.error msg, st1, env1)) :
    makeRequest cfg (fuel + 1) st env retry attemptedRetries = (MkResult.undef, st1, env1) := by
  unfold makeRequest selectPhase
  rw [h]

/-- Claim C2 amended, witness: at a concrete state with no endpoint available,
the selection error is caught and the call resolves to `undefined`. -/
theorem c2_amended_witness :
    makeRequest (DPConfig.mk 5 2 100 none) 3
        (DPState.mk none 0 (SelectorState.mk none []))
        (Env.mk [] [] true false) true 0
      = (MkResult.undef, DPState.mk none 0 (SelectorState.mk none []),
          Env.mk [] [] true false) := by
  exact c2_amended_selection_failure_resolves_undefined _ _ _ _ _ 2 0 true
    "All Discovery Providers are unhealthy and unavailable." rfl

/-- Claim C4: while the regressed-mode flag of the eth-contracts collaborator
is true, `notInRegressedMode` is false, so both staleness checks of
`_makeRequest` are skipped: a successful response is returned as data
whatever its block lag and slot lag are. -/
theorem c4_regressed_mode_suppresses_staleness (cfg : DPConfig) (st : DPState) (env : Env)
    (fuel attemptedRetries : Nat) (retry : Bool) (resp : ParsedResponse)
    (rest : List ReqOutcome) (e : String)
    (hreg : env.regressedMode = true)
    (hout : env.outcomes = ReqOutcome.ok resp :: rest)
    (hep : st.discoveryProviderEndpoint = some e) (hne : e ≠ "")
    (har : attemptedRetries ≤ cfg.selectionRequestRetries) :
    (makeRequest cfg (fuel + 1) st env retry attemptedRetries).1
      = MkResult.value resp.payload := by
  have har' : ¬ attemptedRetries > cfg.selectionRequestRetries := Nat.not_lt.mpr har
  have hfal : endpointFalsy (some e) = false := by
    simp [endpointFalsy, hne]
  simp [makeRequest, selectPhase, getHealthyEndpoint, performRequest, har', hfal, hep, hout,
    hreg]

/-- Claim C4, witness: block diff 500 with threshold 100 and slot diff 500
with threshold 10, in regressed mode: the data is still returned. -/
theorem c4_witness :
    (makeRequest (DPConfig.mk 5 2 100 (some 10)) 3
        (DPState.mk (some "A") 0 (SelectorState.mk (some "A") []))
        (Env.mk [] [ReqOutcome.ok (ParsedResponse.mk (some 0) (some 500) (some 0) (some 500) 7)]
          true true) true 0).1
      = MkResult.value 7 := by
  exact c4_regressed_mode_suppresses_staleness _ _ _ 2 0 true
    (ParsedResponse.mk (some 0) (some 500) (some 0) (some 500) 7) [] "A"
    rfl rfl rfl (by decide) (by decide)

/-- Claim C5: when `attemptedRetries` exceeds `selectionRequestRetries`,
`getHealthyDiscoveryProviderEndpoint` adds the current endpoint to the
unhealthy set and clears the cached selection, so the returned endpoint comes
from a fresh probe round (the next probe result, which also becomes the new
cached selection) rather than from the stale cache; when `attemptedRetries` is
at or below the threshold and an endpoint is currently set, that endpoint is
returned with state and environment untouched. -/
theorem c5_reselect_past_threshold (cfg : DPConfig) (st : DPState) (env : Env)
    (attemptedRetries : Nat) (e : String) (r : Option String)
    (rest : List (Option String)) :
    (attemptedRetries > cfg.selectionRequestRetries → env.probeResults = r :: rest →
      (getHealthyEndpoint cfg st env attemptedRetries).2.1.selector
          = SelectorState.mk r (st.discoveryProviderEndpoint :: st.selector.unhealthy)
        ∧ (getHealthyEndpoint cfg st env attemptedRetries).2.2
          = { env with probeResults := rest }
        ∧ (getHealthyEndpoint cfg st env attemptedRetries).1
          = (if endpointFalsy r then
              Except.error "All Discovery Providers are unhealthy and unavailable."
            else Except.ok (r.getD "")))
    ∧ (attemptedRetries ≤ cfg.selectionRequestRetries → st.discoveryProviderEndpoint = some e →
        e ≠ "" →
        getHealthyEndpoint cfg st env attemptedRetries = (Except.ok e, st, env)) := by
  constructor
  · intro h hpr
    refine ⟨?_, ?_, ?_⟩ <;>
      · simp only [getHealthyEndpoint, selectorSelect, SelectorState.addUnhealthy,
          SelectorState.clearCached, if_pos h, hpr]
        split <;> rfl
  · intro h hep hne
    have h' : ¬ attemptedRetries > cfg.selectionRequestRetries := Nat.not_lt.mpr h
    have hfal : endpointFalsy (some e) = false := by
      simp [endpointFalsy, hne]
    simp [getHealthyEndpoint, if_neg h', hep, hfal]

/-- Claim C5, witness: with threshold 5 and seven attempted retries, endpoint
A is marked unhealthy and the fresh probe result B is selected and cached;
with two attempted retries the cached endpoint A is returned unchanged. -/
theorem c5_witness :
    (6 > 5)
    ∧ (getHealthyEndpoint (DPConfig.mk 5 2 100 none)
          (DPState.mk (some "A") 0 (SelectorState.mk (some "A") []))
          (Env.mk [some "B"] [] true false) 6).2.1.selector
        = SelectorState.mk (some "B") [some "A"]
    ∧ (getHealthyEndpoint (DPConfig.mk 5 2 100 none)
          (DPState.mk (some "A") 0 (SelectorState.mk (some "A") []))
          (Env.mk [some "B"] [] true false) 6).1
        = Except.ok "B"
    ∧ getHealthyEndpoint (DPConfig.mk 5 2 100 none)
          (DPState.mk (some "A") 0 (SelectorState.mk (some "A") []))
          (Env.mk [some "B"] [] true false) 2
        = (Except.ok "A", DPState.mk (some "A") 0 (SelectorState.mk (some "A") []),
            Env.mk [some "B"] [] true false) := by
  refine ⟨by decide, ?_, ?_, ?_⟩
  · exact ((c5_reselect_past_threshold (DPConfig.mk 5 2 100 none)
      (DPState.mk (some "A") 0 (SelectorState.mk (some "A") []))
      (Env.mk [some "B"] [] true false) 6 "A" (some "B") []).1 (by decide) rfl).1
  · have h := ((c5_reselect_past_threshold (DPConfig.mk 5 2 100 none)
      (DPState.mk (some "A") 0 (SelectorState.mk (some "A") []))
      (Env.mk [some "B"] [] true false) 6 "A" (some "B") []).1 (by decide) rfl).2.2
    simpa using h
  · exact (c5_reselect_past_threshold (DPConfig.mk 5 2 100 none)
      (DPState.mk (some "A") 0 (SelectorState.mk (some "A") []))
      (Env.mk [some "B"] [] true false) 2 "A" (some "B") []).2 (by decide) rfl
      (by decide)

/-- Claim C6: after the selection phase of `_makeRequest`, when the selected
endpoint differs from the previous `discoveryProviderEndpoint` the
attempted-retries counter in force for the rest of the invocation is 0, and
when the endpoint is unchanged the counter that was passed in is
preserved. -/
theorem c6_attempted_retries_reset_on_switch (cfg : DPConfig) (st st1 : DPState)
    (env env1 : Env) (attemptedRetries ar : Nat)
    (h : selectPhase cfg st env attemptedRetries = (st1, env1, some ar)) :
    (st1.discoveryProviderEndpoint ≠ st.discoveryProviderEndpoint → ar = 0)
    ∧ (st1.discoveryProviderEndpoint = st.discoveryProviderEndpoint →
        ar = attemptedRetries) := by
  have hend := getHealthyEndpoint_endpoint_eq cfg st env attemptedRetries
  unfold selectPhase at h
  rcases hge : getHealthyEndpoint cfg st env attemptedRetries with ⟨exc, stg, envg⟩
  rw [hge] at h hend
  cases exc with
  | error msg => simp at h
  | ok newEp =>
    dsimp only at h hend
    by_cases hsw : stg.discoveryProviderEndpoint ≠ some newEp
    · rw [if_pos hsw] at h
      injection h with h1 h23
      injection h23 with h2 h3
      injection h3 with h3
      subst h1
      subst h3
      exact ⟨fun _ => rfl, fun hc => absurd (hend.trans hc.symm) hsw⟩
    · rw [if_neg hsw] at h
      injection h with h1 h23
      injection h23 with h2 h3
      injection h3 with h3
      subst h1
      subst h3
      exact ⟨fun hc => absurd hend hc, fun _ => rfl⟩

/-- Claim C6, witness: with the cached endpoint unchanged, an attempted-retries
value of 2 is preserved by the selection phase. -/
theorem c6_witness :
    selectPhase (DPConfig.mk 5 2 100 none)
        (DPState.mk (some "A") 0 (SelectorState.mk (some "A") []))
        (Env.mk [] [] true false) 2
      = (DPState.mk (some "A") 0 (SelectorState.mk (some "A") []),
          Env.mk [] [] true false, some 2)
    ∧ ((DPState.mk (some "A") 0 (SelectorState.mk (some "A") [])).discoveryProviderEndpoint
          ≠ (DPState.mk (some "A") 0 (SelectorState.mk (some "A") [])).discoveryProviderEndpoint
            → 2 = 0)
    ∧ ((DPState.mk (some "A") 0 (SelectorState.mk (some "A") [])).discoveryProviderEndpoint
          = (DPState.mk (some "A") 0 (SelectorState.mk (some "A") [])).discoveryProviderEndpoint
            → 2 = 2) := by
  refine ⟨by decide, ?_⟩
  exact c6_attempted_retries_reset_on_switch (DPConfig.mk 5 2 100 none)
    (DPState.mk (some "A") 0 (SelectorState.mk (some "A") []))
    (DPState.mk (some "A") 0 (SelectorState.mk (some "A") []))
    (Env.mk [] [] true false) (Env.mk [] [] true false) 2 2 (by decide)

/-- Claim C1 counterexample: with `maxRequestsForTrue404 = 2` (the source
default) and a supply of three not-found responses, the call returns `null`
already upon the second not-found (the max-th, not the (max+1)-th): the third
not-found is left unconsumed in the environment, and only one reselection
probe round was used. The counter check is `request404Count < max` after the
increment, so the max-th not-found exhausts the budget. -/
theorem c1_counterexample :
    makeRequest (DPConfig.mk 5 2 100 none) 10
        (DPState.mk (some "A") 0 (SelectorState.mk (some "A") []))
        (Env.mk [some "B", some "C"]
          [ReqOutcome.http404, ReqOutcome.http404, ReqOutcome.http404] true false) true 0
      = (MkResult.jsNull,
          DPState.mk (some "B") 0 (SelectorState.mk (some "B") [some "A"]),
          Env.mk [some "C"] [ReqOutcome.http404] true false) := by
  decide

/-- Claim C1 amended: starting from `request404Count = 0` with retry enabled,
each not-found response increments the counter; while the incremented counter
is still strictly below `maxRequestsForTrue404` the call recurses with the
retry parameter `selectionRequestRetries + 1` (which exceeds the threshold and
so forces the unhealthy-marking reselection path on the next selection), and
otherwise — on the `maxRequestsForTrue404`-th not-found — the call immediately
resolves `null`, resetting the counter to 0 with no further reselect attempt.
Consequently `request404Count` stays strictly below `maxRequestsForTrue404` in
every state reachable from one that satisfies that bound. -/
theorem c1_404_budget (cfg : DPConfig) :
    (∀ fuel st st1 env env1 env2 ar ar1,
        selectPhase cfg st env ar = (st1, env1, some ar1) →
        performRequest env1 = (Except.error true, env2) →
        makeRequest cfg (fuel + 1) st env true ar
          = (if st1.request404Count + 1 < cfg.maxRequestsForTrue404 then
              makeRequest cfg fuel { st1 with request404Count := st1.request404Count + 1 }
                env2 true (cfg.selectionRequestRetries + 1)
            else (MkResult.jsNull, { st1 with request404Count := 0 }, env2)))
    ∧ (∀ fuel st env retry ar,
        st.request404Count < cfg.maxRequestsForTrue404 →
        (makeRequest cfg fuel st env retry ar).2.1.request404Count
          < cfg.maxRequestsForTrue404)
    ∧ cfg.selectionRequestRetries + 1 > cfg.selectionRequestRetries := by
  refine ⟨?_, ?_, Nat.lt_succ_self _⟩
  · intro fuel st st1 env env1 env2 ar ar1 hsel hreq
    exact makeRequest_404_step cfg fuel st st1 env env1 env2 ar ar1 hsel hreq
  · intro fuel st env retry ar hlt
    exact makeRequest_count_lt cfg fuel st env retry ar _ rfl hlt

/-- Claim C1 amended, witness: with `maxRequestsForTrue404 = 2` and the
counter already at 1, a single further not-found exhausts the budget and the
call resolves `null` with the counter reset to 0. -/
theorem c1_404_budget_witness :
    makeRequest (DPConfig.mk 5 2 100 none) 4
        (DPState.mk (some "A") 1 (SelectorState.mk (some "A") []))
        (Env.mk [] [ReqOutcome.http404] true false) true 0
      = (MkResult.jsNull, DPState.mk (some "A") 0 (SelectorState.mk (some "A") []),
          Env.mk [] [] true false)
    ∧ (1 : Nat) < 2 ∧
      (makeRequest (DPConfig.mk 5 2 100 none) 4
        (DPState.mk (some "A") 1 (SelectorState.mk (some "A") []))
        (Env.mk [] [ReqOutcome.http404] true false) true 0).2.1.request404Count < 2 := by
  have h := (c1_404_budget (DPConfig.mk 5 2 100 none)).1 3
    (DPState.mk (some "A") 1 (SelectorState.mk (some "A") []))
    (DPState.mk (some "A") 1 (SelectorState.mk (some "A") []))
    (Env.mk [] [ReqOutcome.http404] true false)
    (Env.mk [] [ReqOutcome.http404] true false)
    (Env.mk [] [] true false) 0 0 rfl rfl
  have hb := (c1_404_budget (DPConfig.mk 5 2 100 none)).2.1 4
    (DPState.mk (some "A") 1 (SelectorState.mk (some "A") []))
    (Env.mk [] [ReqOutcome.http404] true false) true 0 (by decide)
  refine ⟨?_, by decide, hb⟩
  simpa using h

/-- Claim C7 counterexample: `request404Count` is instance state, not
per-operation state. A first logical operation sees one not-found, forces
reselection, and dies in selection failure (resolving `undefined`): it leaves
`request404Count = 1`. A second top-level operation therefore starts with a
counter of 1 rather than 0, and a single not-found in that operation already
exhausts the budget of 2, yielding an immediate `null`. -/
theorem c7_counterexample :
    makeRequest (DPConfig.mk 5 2 100 none) 5
        (DPState.mk (some "A") 0 (SelectorState.mk (some "A") []))
        (Env.mk [] [ReqOutcome.http404] true false) true 0
      = (MkResult.undef, DPState.mk (some "A") 1 (SelectorState.mk none [some "A"]),
          Env.mk [] [] true false)
    ∧ (makeRequest (DPConfig.mk 5 2 100 none) 5
        (DPState.mk (some "A") 1 (SelectorState.mk none [some "A"]))
        (Env.mk [] [ReqOutcome.http404] true false) true 0).1 = MkResult.jsNull := by
  decide

/-- Claim C7 amended: `attemptedRetries` is per-call (a parameter that starts
at 0 for a top-level call), and `request404Count` is reset whenever a call
resolves with data; but the selection phase — including the caught
selection-failure exit that resolves `undefined` — never resets
`request404Count`, so a nonzero counter left by a failed operation carries
over into the next logical operation. -/
theorem c7_counter_scoping (cfg : DPConfig) :
    (∀ fuel st env retry ar res d,
        makeRequest cfg fuel st env retry ar = res →
        res.1 = MkResult.value d → res.2.1.request404Count = 0)
    ∧ (∀ st env ar, (selectPhase cfg st env ar).1.request404Count
        = st.request404Count) := by
  constructor
  · intro fuel st env retry ar res d hmk hv
    exact makeRequest_value_count_zero cfg fuel st env retry ar res d hmk hv
  · intro st env ar
    exact selectPhase_count_eq cfg st env ar

/-- Claim C7 amended, witness: a concrete successful call resolves with data
and leaves the counter at 0. -/
theorem c7_counter_scoping_witness :
    makeRequest (DPConfig.mk 5 2 100 none) 3
        (DPState.mk (some "A") 1 (SelectorState.mk (some "A") []))
        (Env.mk [] [ReqOutcome.ok (ParsedResponse.mk (some 0) (some 0) (some 0) (some 0) 9)]
          true false) true 0
      = (MkResult.value 9, DPState.mk (some "A") 0 (SelectorState.mk (some "A") []),
          Env.mk [] [] true false)
    ∧ (makeRequest (DPConfig.mk 5 2 100 none) 3
        (DPState.mk (some "A") 1 (SelectorState.mk (some "A") []))
        (Env.mk [] [ReqOutcome.ok (ParsedResponse.mk (some 0) (some 0) (some 0) (some 0) 9)]
          true false) true 0).2.1.request404Count = 0 := by
  refine ⟨by decide, ?_⟩
  exact (c7_counter_scoping (DPConfig.mk 5 2 100 none)).1 3
    (DPState.mk (some "A") 1 (SelectorState.mk (some "A") []))
    (Env.mk [] [ReqOutcome.ok (ParsedResponse.mk (some 0) (some 0) (some 0) (some 0) 9)]
      true false) true 0 _ 9 rfl (by decide)

end DiscProv
